import Mathlib

/-!
Shallow embedding of the balancebeam reverse proxy's core
(src/proj-2/balancebeam/src/main.rs): the rate limiter, the rate-reset
task, the upstream connector, the health checker, the startup
initialization of the live upstream set, and the per-request iteration of
the connection handler.  Rust `usize` counters stay well inside the
machine range here, so they are modelled as `Nat`; the
`HashMap<String, usize>` rate monitor is modelled as a total function
with default value 0, matching `entry(..).or_default()`.
-/

namespace BalanceBeam

/-- `check_rate_limit` (main.rs lines 310-324).  With `maxReq = 0` it
returns `Ok(())` at once without touching the monitor.  Otherwise it
increments the counter for `upstream` and returns `Err(429)` exactly when
the post-increment count strictly exceeds `maxReq`.  The result pairs the
updated monitor with `none` for `Ok(())` or `some 429` for
`Err(StatusCode::TOO_MANY_REQUESTS)`. -/
def check_rate_limit (maxReq : Nat) (monitor : String → Nat) (upstream : String) :
    (String → Nat) × Option Nat :=
  if maxReq = 0 then (monitor, none)
  else
    let monitor' := fun k => if k = upstream then monitor k + 1 else monitor k
    if monitor upstream + 1 > maxReq then (monitor', some 429) else (monitor', none)

/-- The rate-monitor state after `k` successive `check_rate_limit` calls
for the key `u`, starting from monitor `m0`. -/
def rateState (maxReq : Nat) (m0 : String → Nat) (u : String) : Nat → (String → Nat)
  | 0 => m0
  | k + 1 => (check_rate_limit maxReq (rateState maxReq m0 u k) u).1

/-- The outcome of the `k`-th `check_rate_limit` call (`k ≥ 1`) for the
key `u`, starting from monitor `m0`. -/
def rateCallResult (maxReq : Nat) (m0 : String → Nat) (u : String) (k : Nat) : Option Nat :=
  (check_rate_limit maxReq (rateState maxReq m0 u (k - 1)) u).2

/-- An effect of the rate-reset task. -/
inductive RMEvent
  | sleep (secs : Nat)
  | clearAll
deriving DecidableEq, Repr, BEq

/-- `reset_rate_monitor` (main.rs lines 304-308), as the exact sequence
of effects the spawned task performs: it sleeps 60 seconds, clears the
rate monitor once, and returns — the function body contains no loop
(unlike `health_check`), so the spawned task terminates after the single
clear. -/
def reset_rate_monitor : List RMEvent :=
  [RMEvent.sleep 60, RMEvent.clearAll]

/-- How `connect_to_upstream` ends: `conn a` models `Ok(stream)` for a
stream connected to address `a`; `unreachable` models the `Err` return
taken when the live set is exhausted (the caller surfaces it as
502 Bad Gateway); `panicked` models a Rust panic aborting the task. -/
inductive ConnectResult
  | conn (addr : String)
  | unreachable
  | panicked
deriving DecidableEq, Repr

/-- `connect_to_upstream` (main.rs lines 109-138), sequential behaviour.
`connects a` tells whether `TcpStream::connect(a)` succeeds; `pick i` is
the `i`-th draw of the freshly seeded RNG, reduced mod the current length
exactly as `rng.gen_range(0..len)` behaves on a non-empty range.  On an
empty live vector the very first statement of the loop body runs
`rng.gen_range(0..0)`, which panics (`cannot sample empty range`); the
first branch records that.  On a failed connect the chosen index is
removed (`Vec::remove(upstream_idx)`) and the loop retries, returning the
error once the vector has been emptied. -/
def connect_to_upstream (connects : String → Bool) (pick : Nat → Nat) :
    List String → Nat → ConnectResult
  | live, iter =>
    if hl : live.length = 0 then ConnectResult.panicked
    else
      have hidx : pick iter % live.length < live.length :=
        Nat.mod_lt _ (Nat.pos_of_ne_zero hl)
      let addr := live.get ⟨pick iter % live.length, hidx⟩
      if connects addr then ConnectResult.conn addr
      else
        let live' := live.eraseIdx (pick iter % live.length)
        if live'.length = 0 then ConnectResult.unreachable
        else connect_to_upstream connects pick live' (iter + 1)
termination_by live _ => live.length
decreasing_by
  have h := List.length_eraseIdx_add_one hidx
  omega

/-- The connector's failure handling (main.rs lines 126-130):
`Vec::remove(upstream_idx)` on the live vector — removal by position, not
by address.  `liveAtRemoval` is the vector's contents at the moment the
write lock is acquired, which a concurrent mutation may have changed
since the index was selected.  (For an index past the end `Vec::remove`
panics before modifying the vector, so the vector is left unchanged,
as `eraseIdx` leaves it.) -/
def removeFailedUpstream (liveAtRemoval : List String) (idx : Nat) : List String :=
  liveAtRemoval.eraseIdx idx

/-- `Vec::clear` on the write-locked live vector (main.rs line 263). -/
def vecClear (_v : List String) : List String := []

/-- One probing pass of `health_check` (main.rs lines 262-293).  The
write-locked live vector is cleared, then each address of the full
configured list whose probe yields a response with status exactly 200 is
pushed.  `respond u = some s` means the probe connect and response read
for `u` succeeded with status code `s`; `none` means the connect or the
read failed (which only logs and moves on to the next upstream). -/
def health_check_pass (prevLive : List String) (configured : List String)
    (respond : String → Option Nat) : List String :=
  configured.foldl
    (fun active u => if respond u == some 200 then active ++ [u] else active)
    (vecClear prevLive)

/-- Startup (main.rs lines 70-93): the process exits when no upstream is
configured; otherwise `active_upstream_addresses` starts as exactly the
configured upstream list. -/
def startupActiveUpstreams (upstreams : List String) : Except Unit (List String) :=
  if upstreams.length < 1 then Except.error () else Except.ok upstreams

/-- The only two mutations ever applied to the live list after startup:
the connector's by-index removal and the health checker's rebuild. -/
inductive LiveMutation
  | removeAt (idx : Nat)
  | healthRebuild (respond : String → Option Nat)

/-- Apply one mutation to the live list (the configured list is fixed
after startup). -/
def applyLiveMutation (configured : List String) (live : List String) :
    LiveMutation → List String
  | LiveMutation.removeAt idx => removeFailedUpstream live idx
  | LiveMutation.healthRebuild respond => health_check_pass live configured respond

/-- The live list after a sequence of mutations, starting from its
startup value (the configured list). -/
def runLiveMutations (configured : List String) (ms : List LiveMutation) : List String :=
  ms.foldl (applyLiveMutation configured) configured

/-- `request::Error` (the variants `handle_connection` matches on,
main.rs lines 172-196). -/
inductive ReqError
  | incompleteRequest (bytesRead : Nat)
  | malformedRequest
  | invalidContentLength
  | contentLengthMismatch
  | requestBodyTooLarge
  | connectionError
deriving DecidableEq, Repr

/-- The status-code mapping of main.rs lines 186-193 (the argument of
`make_http_error` in the catch-all arm of the read match). -/
def errorStatus : ReqError → Nat
  | ReqError.incompleteRequest _ => 400
  | ReqError.malformedRequest => 400
  | ReqError.invalidContentLength => 400
  | ReqError.contentLengthMismatch => 400
  | ReqError.requestBodyTooLarge => 413
  | ReqError.connectionError => 503

/-- Whether the handler loops to read the next request or returns. -/
inductive Flow
  | next
  | terminate
deriving DecidableEq, Repr

/-- What one iteration of `handle_connection`'s request loop did:
the status codes of the responses written to the client (in order), whether
the request was written to the upstream connection, and whether the loop
continues. -/
structure IterEffects where
  sentToClient : List Nat
  wroteToUpstream : Bool
  flow : Flow
deriving DecidableEq, Repr

/-- One iteration of the request loop of `handle_connection`
(main.rs lines 170-245).  `readResult` is the outcome of
`request::read_from_stream` on the client socket; `forwardOk` whether
`request::write_to_stream` to the upstream succeeds; `respStatus` the
status of the response `response::read_from_stream` returns from the
upstream, or `Except.error ()` when that read fails.  Returns the
iteration's observable effects and the rate monitor after it. -/
def handle_connection_iter (maxReq : Nat) (counters : String → Nat) (upstreamIp : String)
    (readResult : Except ReqError Unit) (forwardOk : Bool) (respStatus : Except Unit Nat) :
    IterEffects × (String → Nat) :=
  match readResult with
  | Except.error (ReqError.incompleteRequest 0) =>
      (⟨[], false, Flow.terminate⟩, counters)
  | Except.error ReqError.connectionError =>
      (⟨[], false, Flow.terminate⟩, counters)
  | Except.error e =>
      (⟨[errorStatus e], false, Flow.next⟩, counters)
  | Except.ok _ =>
      let checked := check_rate_limit maxReq counters upstreamIp
      match checked.2 with
      | some status => (⟨[status], false, Flow.next⟩, checked.1)
      | none =>
          if forwardOk then
            match respStatus with
            | Except.ok st => (⟨[st], true, Flow.next⟩, checked.1)
            | Except.error _ => (⟨[502], true, Flow.terminate⟩, checked.1)
          else (⟨[502], true, Flow.terminate⟩, checked.1)

/-- Lock and network events of a task, in program order.  `acquire`/
`release` pairs delimit the scope of a guard (`RwLock::read`,
`RwLock::write`, `Mutex::lock`); `netOp` is a network operation that
suspends the task (`TcpStream::connect`, stream reads and writes). -/
inductive LockEv
  | acquireRead
  | releaseRead
  | acquireWrite
  | releaseWrite
  | acquireRate
  | releaseRate
  | netOp (desc : String)
deriving DecidableEq, Repr

/-- One failed-connect iteration of `connect_to_upstream`
(main.rs lines 111-136): the `len()` read guard and the `get`/`clone`
read guard are each dropped at the end of their statement, before
`TcpStream::connect`; the write guard for `remove` and the final `len()`
read guard likewise enclose no network operation. -/
def connectIterTrace (u : String) : List LockEv :=
  [LockEv.acquireRead, LockEv.releaseRead,
   LockEv.acquireRead, LockEv.releaseRead,
   LockEv.netOp (String.append "connect " u),
   LockEv.acquireWrite, LockEv.releaseWrite,
   LockEv.acquireRead, LockEv.releaseRead]

/-- `check_rate_limit`'s locking (main.rs lines 315-323): the `Mutex`
guard is held only around the in-memory update; no network operation. -/
def rateLimitTrace : List LockEv :=
  [LockEv.acquireRate, LockEv.releaseRate]

/-- Lock and network events of one probing pass of `health_check`
(main.rs lines 262-293): the write guard `active_servers` is taken before
the probe loop and dropped only after every configured upstream has been
probed; each probe performs a connect, a request write and a response
read while the guard is held. -/
def healthCheckPassTrace (configured : List String) : List LockEv :=
  LockEv.acquireWrite ::
    ((configured.map fun u =>
      [LockEv.netOp (String.append "connect " u),
       LockEv.netOp (String.append "write " u),
       LockEv.netOp (String.append "read " u)]).flatten ++ [LockEv.releaseWrite])

/-- Scans a trace with the number of currently held locks; `true` iff
some network operation happens while at least one lock is held. -/
def ioWhileLocked (held : Nat) : List LockEv → Bool
  | [] => false
  | e :: rest =>
    match e with
    | LockEv.acquireRead => ioWhileLocked (held + 1) rest
    | LockEv.acquireWrite => ioWhileLocked (held + 1) rest
    | LockEv.acquireRate => ioWhileLocked (held + 1) rest
    | LockEv.releaseRead => ioWhileLocked (held - 1) rest
    | LockEv.releaseWrite => ioWhileLocked (held - 1) rest
    | LockEv.releaseRate => ioWhileLocked (held - 1) rest
    | LockEv.netOp _ => decide (0 < held) || ioWhileLocked held rest

/-- Decimal digits of `n`, most significant first (the digit characters
Rust's `Display` for integers produces). -/
def toDecimalAux (n : Nat) (acc : List Char) : List Char :=
  if n < 10 then Nat.digitChar n :: acc
  else toDecimalAux (n / 10) (Nat.digitChar (n % 10) :: acc)
termination_by n
decreasing_by
  exact Nat.div_lt_self (by omega) (by omega)

/-- Decimal representation of `n` as a character list. -/
def toDecimal (n : Nat) : List Char := toDecimalAux n []

/-- An IPv4 address as its four octets. -/
structure Ipv4 where
  a : Nat
  b : Nat
  c : Nat
  d : Nat

/-- `IpAddr::to_string()` for an IPv4 address: dotted decimal, no port. -/
def ipToString (ip : Ipv4) : String :=
  String.mk (toDecimal ip.a ++ '.' :: toDecimal ip.b ++
    '.' :: toDecimal ip.c ++ '.' :: toDecimal ip.d)

/-- A socket address as `peer_addr()` returns it: an IP and a port. -/
structure SocketAddr where
  ip : Ipv4
  port : Nat

/-- main.rs line 166:
`upstream_conn.peer_addr().unwrap().ip().to_string()` — the key under
which `check_rate_limit` counts the connection's requests.  `.ip()`
drops the port before formatting. -/
def rateLimitKey (peer : SocketAddr) : String := ipToString peer.ip

/-- A configured upstream entry in the `host:port` form that
`TcpStream::connect` requires of the `--upstream` strings. -/
def hostPortEntry (host : String) (port : Nat) : String :=
  host ++ ":" ++ String.mk (toDecimal port)

/-! ### Helper lemmas -/

/-- With a non-zero maximum, one `check_rate_limit` call updates the
monitor by bumping exactly the probed key. -/
theorem check_rate_limit_fst (maxReq : Nat) (hne : maxReq ≠ 0) (m : String → Nat)
    (u : String) :
    (check_rate_limit maxReq m u).1 = fun k => if k = u then m k + 1 else m k := by
  simp only [check_rate_limit, if_neg hne]
  split <;> rfl

/-- With a non-zero maximum, `check_rate_limit` rejects exactly when the
post-increment count strictly exceeds the maximum. -/
theorem check_rate_limit_snd (maxReq : Nat) (hne : maxReq ≠ 0) (m : String → Nat)
    (u : String) :
    (check_rate_limit maxReq m u).2 =
      if m u + 1 > maxReq then some 429 else none := by
  simp only [check_rate_limit, if_neg hne]
  split <;> rfl

/-- The probed key's counter after `k` calls. -/
theorem rateState_self (maxReq : Nat) (hne : maxReq ≠ 0) (m0 : String → Nat)
    (u : String) : ∀ k, rateState maxReq m0 u k u = m0 u + k := by
  intro k
  induction k with
  | zero => rfl
  | succ k ih =>
    show (check_rate_limit maxReq (rateState maxReq m0 u k) u).1 u = m0 u + (k + 1)
    rw [check_rate_limit_fst maxReq hne]
    simp [ih]
    omega

/-- Pushing each element satisfying `p` onto an accumulator is filtering. -/
theorem foldl_push_eq_filter (p : String → Bool) :
    ∀ (l acc : List String),
      l.foldl (fun active u => if p u then active ++ [u] else active) acc
        = acc ++ l.filter p := by
  intro l
  induction l with
  | nil => intro acc; simp
  | cons x xs ih =>
    intro acc
    by_cases h : p x
    · simp [List.foldl_cons, h, ih, List.filter_cons, List.append_assoc]
    · simp [List.foldl_cons, h, ih, List.filter_cons]

/-- A health-check pass computes the filter of the configured list by the
probe predicate. -/
theorem health_check_pass_eq_filter (prevLive configured : List String)
    (respond : String → Option Nat) :
    health_check_pass prevLive configured respond
      = configured.filter (fun u => respond u == some 200) := by
  show configured.foldl _ (vecClear prevLive)
      = configured.filter (fun u => respond u == some 200)
  rw [show vecClear prevLive = [] from rfl,
    foldl_push_eq_filter (fun u => respond u == some 200) configured []]
  simp

/-- Erasing an index keeps membership. -/
theorem mem_of_mem_eraseIdx' :
    ∀ (l : List String) (i : Nat) (a : String), a ∈ l.eraseIdx i → a ∈ l := by
  intro l
  induction l with
  | nil => intro i a ha; simp [List.eraseIdx] at ha
  | cons x xs ih =>
    intro i a ha
    cases i with
    | zero => exact List.mem_cons_of_mem x ha
    | succ i =>
      rcases List.mem_cons.1 ha with rfl | ha'
      · exact List.mem_cons_self a xs
      · exact List.mem_cons_of_mem x (ih i a ha')

/-- Erasing index `i` removes one occurrence of the element at `i` and no
occurrence of anything else. -/
theorem count_eraseIdx_get :
    ∀ (l : List String) (i : Nat) (h : i < l.length),
      ((l.eraseIdx i).count (l.get ⟨i, h⟩) + 1 = l.count (l.get ⟨i, h⟩)) ∧
      (∀ a, a ≠ l.get ⟨i, h⟩ → (l.eraseIdx i).count a = l.count a) := by
  intro l
  induction l with
  | nil => intro i h; simp at h
  | cons x xs ih =>
    intro i h
    cases i with
    | zero =>
      refine ⟨?_, ?_⟩
      · simp [List.count_cons]
      · intro a ha
        simp only [List.get] at ha
        simp [List.count_cons, ha, Ne.symm ha]
    | succ i =>
      have hi : i < xs.length := by
        simp only [List.length_cons] at h
        omega
      refine ⟨?_, ?_⟩
      · have := (ih i hi).1
        simp only [List.eraseIdx, List.get, List.count_cons]
        omega
      · intro a ha
        have := (ih i hi).2 a (by simpa using ha)
        simp only [List.eraseIdx, List.get, List.count_cons]
        omega

/-! ### Claim theorems -/

/-- C1: with a configured maximum `maxReq > 0`, every `check_rate_limit`
call increments the probed key's counter by one — and no other key's —
whatever the outcome; starting from a fresh window, the counter after `k`
calls is `k`, and the `k`-th call is allowed (`Ok`) iff `k ≤ maxReq` and
rejected with 429 iff `maxReq < k`: the first `maxReq` calls succeed and
every later call is rejected. -/
theorem check_rate_limit_window_behaviour (maxReq : Nat) (m : String → Nat)
    (u : String) (hN : 0 < maxReq) :
    ((check_rate_limit maxReq m u).1 u = m u + 1) ∧
    (∀ v, v ≠ u → (check_rate_limit maxReq m u).1 v = m v) ∧
    (∀ k, rateState maxReq (fun _ => 0) u k u = k) ∧
    (∀ k, 0 < k →
      (rateCallResult maxReq (fun _ => 0) u k = none ↔ k ≤ maxReq) ∧
      (rateCallResult maxReq (fun _ => 0) u k = some 429 ↔ maxReq < k)) := by
  have hne : maxReq ≠ 0 := hN.ne'
  refine ⟨?_, ?_, ?_, ?_⟩
  · rw [check_rate_limit_fst maxReq hne]
    simp
  · intro v hv
    rw [check_rate_limit_fst maxReq hne]
    simp [hv]
  · intro k
    have := rateState_self maxReq hne (fun _ => 0) u k
    simpa using this
  · intro k hk
    have hstate := rateState_self maxReq hne (fun _ => 0) u (k - 1)
    show ((check_rate_limit maxReq (rateState maxReq (fun _ => 0) u (k - 1)) u).2
        = none ↔ k ≤ maxReq) ∧
      ((check_rate_limit maxReq (rateState maxReq (fun _ => 0) u (k - 1)) u).2
        = some 429 ↔ maxReq < k)
    rw [check_rate_limit_snd maxReq hne, hstate]
    have hkk : 0 + (k - 1) + 1 = k := by omega
    rw [hkk]
    constructor
    · split <;> simp_all
    · split <;> simp_all

/-- Witness for C1 at maximum 2: the third call in the window is not
allowed and is rejected with 429. -/
theorem check_rate_limit_window_behaviour_witness :
    (rateCallResult 2 (fun _ => 0) "10.0.0.1" 3 = none ↔ 3 ≤ 2) ∧
    (rateCallResult 2 (fun _ => 0) "10.0.0.1" 3 = some 429 ↔ 2 < 3) :=
  (check_rate_limit_window_behaviour 2 (fun _ => 0) "10.0.0.1"
    (by decide)).2.2.2 3 (by decide)

/-- C2: the rate-reset task's effect trace holds exactly one clear of the
rate monitor — the task sleeps 60 seconds, clears once, and ends, so no
clear happens after the second or any later 60-second window. -/
theorem reset_rate_monitor_clears_once :
    reset_rate_monitor.count RMEvent.clearAll = 1 := by decide

/-- C3: invoked with an already-empty live vector, `connect_to_upstream`
runs `rng.gen_range(0..0)` and panics instead of returning the
Unreachable error; with a non-empty vector whose addresses all refuse
connections it does return the error once the vector is emptied. -/
theorem connect_to_upstream_empty_panics :
    connect_to_upstream (fun _ => false) (fun _ => 0) [] 0
        = ConnectResult.panicked ∧
    connect_to_upstream (fun _ => false) (fun _ => 0) ["127.0.0.1:8080"] 0
        = ConnectResult.unreachable := by
  constructor
  · rw [connect_to_upstream]
    simp
  · rw [connect_to_upstream]
    simp [List.eraseIdx]

/-- C4: counterexample — the address that failed was selected from the
snapshot `["10.0.0.1:1", "10.0.0.2:2"]` at index 0, so it is
`"10.0.0.1:1"`; after a concurrent change reorders the live vector to
`["10.0.0.2:2", "10.0.0.1:1"]`, the code's by-index removal deletes
`"10.0.0.2:2"` — another address — and leaves the failed address in the
live set.  Also, applying the removal again keeps removing entries, so
the operation is not idempotent. -/
theorem removeFailedUpstream_wrong_address :
    ((["10.0.0.1:1", "10.0.0.2:2"] : List String).get? 0 = some "10.0.0.1:1") ∧
    removeFailedUpstream ["10.0.0.2:2", "10.0.0.1:1"] 0 = ["10.0.0.1:1"] ∧
    "10.0.0.1:1" ∈ removeFailedUpstream ["10.0.0.2:2", "10.0.0.1:1"] 0 ∧
    "10.0.0.2:2" ∉ removeFailedUpstream ["10.0.0.2:2", "10.0.0.1:1"] 0 ∧
    removeFailedUpstream ["10.0.0.1:1"] 0 ≠ ["10.0.0.1:1"] := by
  refine ⟨rfl, rfl, ?_, ?_, ?_⟩ <;> decide

/-- C4 (amended): the connector removes by position, not by address:
`Vec::remove(upstream_idx)` deletes exactly the occurrence at the
selected index, so when the live vector is unchanged between selection
and removal the failed address's count drops by one, every other
address's count is unchanged, and the length drops by one; when the
vector was modified in between, whatever entry now sits at that index is
the one removed (see the counterexample), and the operation is not an
idempotent removal by address. -/
theorem removeFailedUpstream_removes_selected (live : List String) (idx : Nat)
    (h : idx < live.length) :
    ((removeFailedUpstream live idx).count (live.get ⟨idx, h⟩) + 1
        = live.count (live.get ⟨idx, h⟩)) ∧
    (∀ a, a ≠ live.get ⟨idx, h⟩ →
        (removeFailedUpstream live idx).count a = live.count a) ∧
    ((removeFailedUpstream live idx).length + 1 = live.length) := by
  refine ⟨(count_eraseIdx_get live idx h).1, (count_eraseIdx_get live idx h).2, ?_⟩
  exact List.length_eraseIdx_add_one h

/-- Witness for C4's amended statement on a two-element live vector. -/
theorem removeFailedUpstream_removes_selected_witness :
    (removeFailedUpstream ["10.0.0.1:1", "10.0.0.2:2"] 0).length + 1
      = (["10.0.0.1:1", "10.0.0.2:2"] : List String).length :=
  (removeFailedUpstream_removes_selected ["10.0.0.1:1", "10.0.0.2:2"] 0
    (by decide)).2.2

/-- C5: a health-check pass is a full rebuild: its result does not depend
on the previous live set, and it equals exactly the configured addresses
whose probe produced a response with status exactly 200 — so a
previously-removed-but-now-healthy upstream is restored, a
previously-live-but-now-failing upstream is dropped, and no upstream's
probe failure stops any other upstream from being probed and
classified. -/
theorem health_check_pass_full_rebuild (prevLive prevLive' configured : List String)
    (respond : String → Option Nat) :
    (health_check_pass prevLive configured respond
        = health_check_pass prevLive' configured respond) ∧
    (health_check_pass prevLive configured respond
        = configured.filter (fun u => respond u == some 200)) ∧
    (∀ u, u ∈ health_check_pass prevLive configured respond ↔
        (u ∈ configured ∧ respond u = some 200)) := by
  refine ⟨?_, health_check_pass_eq_filter prevLive configured respond, ?_⟩
  · rw [health_check_pass_eq_filter prevLive configured respond,
      health_check_pass_eq_filter prevLive' configured respond]
  · intro u
    rw [health_check_pass_eq_filter prevLive configured respond]
    simp [List.mem_filter]

/-- C6: with a non-empty configured list, startup initializes the live
list to exactly the configured list (with an empty one startup fails),
and after any sequence of the two possible mutations — the connector's
by-index removal and the health checker's rebuild — every address of the
live list is still an address of the configured list. -/
theorem live_list_subset_configured (configured : List String)
    (h : configured ≠ []) :
    (startupActiveUpstreams configured = Except.ok configured) ∧
    (startupActiveUpstreams [] = Except.error ()) ∧
    (∀ ms a, a ∈ runLiveMutations configured ms → a ∈ configured) := by
  refine ⟨?_, rfl, ?_⟩
  · have hlen : ¬ configured.length < 1 := by
      have := List.length_pos.2 h
      omega
    simp [startupActiveUpstreams, hlen]
  · have aux : ∀ (ms : List LiveMutation) (live : List String),
        (∀ a ∈ live, a ∈ configured) →
        ∀ a ∈ ms.foldl (applyLiveMutation configured) live, a ∈ configured := by
      intro ms
      induction ms with
      | nil => intro live hlive a ha; exact hlive a ha
      | cons mv rest ih =>
        intro live hlive a ha
        refine ih (applyLiveMutation configured live mv) ?_ a ha
        intro b hb
        cases mv with
        | removeAt idx =>
          exact hlive b (mem_of_mem_eraseIdx' live idx b hb)
        | healthRebuild respond =>
          have : b ∈ configured.filter (fun u => respond u == some 200) := by
            rw [← health_check_pass_eq_filter live configured respond]
            exact hb
          exact (List.mem_filter.1 this).1
    intro ms a ha
    exact aux ms configured (fun a ha => ha) a ha

/-- Witness for C6 with one configured upstream. -/
theorem live_list_subset_configured_witness :
    startupActiveUpstreams ["127.0.0.1:8080"] = Except.ok ["127.0.0.1:8080"] :=
  (live_list_subset_configured ["127.0.0.1:8080"] (by decide)).1

/-- C7: when the rate limiter rejects — the counter for the upstream key
has already reached the configured maximum — the handler's iteration
sends the client exactly one response, with status 429, writes nothing to
the upstream connection, and loops back to read the next request instead
of terminating the connection. -/
theorem rate_rejected_iteration (maxReq : Nat) (counters : String → Nat)
    (u : String) (forwardOk : Bool) (respStatus : Except Unit Nat)
    (hmax : 0 < maxReq) (hcount : maxReq ≤ counters u) :
    (handle_connection_iter maxReq counters u (Except.ok ()) forwardOk
        respStatus).1 = ⟨[429], false, Flow.next⟩ := by
  have hne : maxReq ≠ 0 := hmax.ne'
  have h2 : (check_rate_limit maxReq counters u).2 = some 429 := by
    rw [check_rate_limit_snd maxReq hne]
    have hgt : counters u + 1 > maxReq := by omega
    simp [hgt]
  simp only [handle_connection_iter]
  rw [h2]

/-- Witness for C7: maximum 1, counter already 1 — the iteration sends
429, forwards nothing, and continues. -/
theorem rate_rejected_iteration_witness :
    (handle_connection_iter 1 (fun _ => 1) "10.0.0.1" (Except.ok ()) true
        (Except.ok 200)).1 = ⟨[429], false, Flow.next⟩ :=
  rate_rejected_iteration 1 (fun _ => 1) "10.0.0.1" true (Except.ok 200)
    (by decide) (by decide)

/-- C8: counterexample — on a connection-level read error
(`request::Error::ConnectionError`) the iteration sends nothing at all to
the client (in particular no 503 response) and terminates the
connection. -/
theorem conn_error_sends_nothing :
    ((handle_connection_iter 0 (fun _ => 0) "10.0.0.1"
        (Except.error ReqError.connectionError) true (Except.ok 200)).1.sentToClient
      = []) ∧
    ((handle_connection_iter 0 (fun _ => 0) "10.0.0.1"
        (Except.error ReqError.connectionError) true (Except.ok 200)).1.flow
      = Flow.terminate) :=
  ⟨rfl, rfl⟩

/-- C8 (amended): on a connection-level read error the handler logs and
returns: the iteration sends no response to the client, writes nothing to
the upstream, terminates the connection, and leaves the rate monitor
untouched.  The handler's error-response table does map `ConnectionError`
to 503, but the dedicated `ConnectionError` arm returns first, so that
mapping is unreachable from the client-read path. -/
theorem conn_error_iteration (maxReq : Nat) (counters : String → Nat)
    (u : String) (forwardOk : Bool) (respStatus : Except Unit Nat) :
    (handle_connection_iter maxReq counters u
        (Except.error ReqError.connectionError) forwardOk respStatus
      = (⟨[], false, Flow.terminate⟩, counters)) ∧
    errorStatus ReqError.connectionError = 503 :=
  ⟨rfl, rfl⟩

/-- C9: counterexample — during a health-check pass over a one-element
configured list, a network operation happens while the live-set write
lock is held, so a lock is held across a network suspension point. -/
theorem health_check_probe_under_write_lock :
    ioWhileLocked 0 (healthCheckPassTrace ["10.0.0.1:80"]) = true := rfl

/-- C9 (amended): the connector's loop and the rate limiter never hold a
lock across a network operation — every guard is dropped before
`TcpStream::connect` or a stream read/write — but the health checker
acquires the live-set write lock before its probe loop and holds it
across every probe's connect, request write and response read for the
whole pass. -/
theorem lock_discipline (u : String) (configured : List String)
    (h : configured ≠ []) :
    (ioWhileLocked 0 (connectIterTrace u) = false) ∧
    (ioWhileLocked 0 rateLimitTrace = false) ∧
    (ioWhileLocked 0 (healthCheckPassTrace configured) = true) := by
  refine ⟨rfl, rfl, ?_⟩
  cases configured with
  | nil => exact absurd rfl h
  | cons c cs => rfl

/-- Witness for C9's amended statement on a concrete configured list. -/
theorem lock_discipline_witness :
    ioWhileLocked 0 (healthCheckPassTrace ["10.0.0.2:80"]) = true :=
  (lock_discipline "10.0.0.2:80" ["10.0.0.2:80"] (by decide)).2.2

/-- Digit characters of values below ten are decimal digits. -/
theorem digitChar_isDigit (m : Nat) (hm : m < 10) :
    (Nat.digitChar m).isDigit = true := by
  interval_cases m <;> decide

/-- Every character `toDecimalAux` produces is a decimal digit, provided
the accumulator holds only digits. -/
theorem toDecimalAux_digits :
    ∀ (n : Nat) (acc : List Char), (∀ c ∈ acc, c.isDigit = true) →
      ∀ c ∈ toDecimalAux n acc, c.isDigit = true := by
  intro n
  induction n using Nat.strong_induction_on with
  | _ n ih =>
    intro acc hacc c hc
    rw [toDecimalAux] at hc
    split at hc
    next h =>
      rcases List.mem_cons.1 hc with rfl | hmem
      · exact digitChar_isDigit n h
      · exact hacc c hmem
    next h =>
      refine ih (n / 10) (Nat.div_lt_self (by omega) (by omega)) _ ?_ c hc
      intro d hd
      rcases List.mem_cons.1 hd with rfl | hmem
      · exact digitChar_isDigit (n % 10) (Nat.mod_lt _ (by omega))
      · exact hacc d hmem

/-- Every character of a decimal representation is a digit. -/
theorem toDecimal_digits (n : Nat) : ∀ c ∈ toDecimal n, c.isDigit = true :=
  toDecimalAux_digits n [] (by simp)

/-- Every character of a dotted-decimal IPv4 rendering is a digit or a
dot. -/
theorem mem_ipToString_digit_or_dot (ip : Ipv4) :
    ∀ c ∈ (ipToString ip).data, c.isDigit = true ∨ c = '.' := by
  intro c hc
  have hdata : (ipToString ip).data
      = toDecimal ip.a ++ '.' :: toDecimal ip.b ++
        '.' :: toDecimal ip.c ++ '.' :: toDecimal ip.d := rfl
  rw [hdata] at hc
  simp only [List.mem_append, List.mem_cons] at hc
  rcases hc with ((h | rfl | h) | rfl | h) | rfl | h
  · exact Or.inl (toDecimal_digits ip.a c h)
  · exact Or.inr rfl
  · exact Or.inl (toDecimal_digits ip.b c h)
  · exact Or.inr rfl
  · exact Or.inl (toDecimal_digits ip.c c h)
  · exact Or.inr rfl
  · exact Or.inl (toDecimal_digits ip.d c h)

/-- A dotted-decimal IPv4 rendering contains no colon. -/
theorem colon_not_mem_ipToString (ip : Ipv4) : ':' ∉ (ipToString ip).data := by
  intro hmem
  rcases mem_ipToString_digit_or_dot ip ':' hmem with h | h
  · exact absurd h (by decide)
  · exact absurd h (by decide)

/-- The characters of a `host:port` entry. -/
theorem hostPortEntry_data (host : String) (port : Nat) :
    (hostPortEntry host port).data = host.data ++ ':' :: toDecimal port := by
  simp [hostPortEntry, String.data_append]

/-- C10: the rate-limit key taken at main.rs line 166 is the upstream
peer's IP rendered without the port: the key is the dotted-decimal IP
alone, keys for the same IP under different ports coincide — so two
configured upstreams resolving to the same host IP are counted by
`check_rate_limit` under one shared counter — and a key never equals a
configured `host:port` entry, because the entry contains a colon and the
key cannot. -/
theorem rate_limit_key_is_peer_ip (ip : Ipv4) (p q : Nat) (maxReq : Nat)
    (m : String → Nat) (host : String) (r : Nat) :
    (rateLimitKey ⟨ip, p⟩ = ipToString ip) ∧
    (rateLimitKey ⟨ip, p⟩ = rateLimitKey ⟨ip, q⟩) ∧
    (check_rate_limit maxReq m (rateLimitKey ⟨ip, p⟩)
        = check_rate_limit maxReq m (rateLimitKey ⟨ip, q⟩)) ∧
    (rateLimitKey ⟨ip, p⟩ ≠ hostPortEntry host r) := by
  refine ⟨rfl, rfl, rfl, ?_⟩
  intro heq
  have hdata := congrArg String.data heq
  have hcolon : ':' ∈ (hostPortEntry host r).data := by
    rw [hostPortEntry_data host r]
    exact List.mem_append_right _ (List.mem_cons_self ':' (toDecimal r))
  rw [← hdata] at hcolon
  exact colon_not_mem_ipToString ip hcolon

end BalanceBeam
